import Mathlib

/-!
Shallow embedding of `snapshot_queries/query.py`: the `Query` record, its
factory `Query.create`, the diagnostic representation `Query.repr`, the
report builder `Query.display_string` and the SQL enhancer
`Query._enhanced_sql`.  External collaborators (the pygments highlighter and
the sqlparse formatter) are abstracted as function parameters; Python string
primitives (`strip`, `rstrip`, `lower`, `join`, `repr` of a string) are
modelled as executable functions on the character list of a string.
-/

/-- Python `str.isspace` characters relevant to `strip`/`rstrip`
(ASCII whitespace: space, tab, newline, carriage return, vertical tab,
form feed). -/
def pyIsSpace (c : Char) : Bool :=
  c == ' ' || c == '\t' || c == '\n' || c == '\r' || c == '\x0b' || c == '\x0c'

/-- Python `str.strip()`: remove leading and trailing whitespace. -/
def pyStrip (s : String) : String :=
  String.mk (((s.data.dropWhile pyIsSpace).reverse.dropWhile pyIsSpace).reverse)

/-- Python `str.rstrip()`: remove trailing whitespace. -/
def pyRstrip (s : String) : String :=
  String.mk ((s.data.reverse.dropWhile pyIsSpace).reverse)

/-- Python `str.lower` on one ASCII character. -/
def pyLowerChar (c : Char) : Char :=
  if 65 ≤ c.toNat && c.toNat ≤ 90 then Char.ofNat (c.toNat + 32) else c

/-- Python `str.lower()` (ASCII range, which covers the db-type tags). -/
def pyLower (s : String) : String :=
  String.mk (s.data.map pyLowerChar)

/-- Python `sep.join(parts)`. -/
def pyJoin (sep : String) : List String → String
  | [] => ""
  | [x] => x
  | x :: y :: xs => x ++ sep ++ pyJoin sep (y :: xs)

/-- The single-quote character, written by code point to keep source lines
free of bare apostrophes. -/
def sQuote : Char := Char.ofNat 39

/-- The double-quote character. -/
def dQuote : Char := Char.ofNat 34

/-- Quote character chosen by Python `repr` for a string: a single quote,
unless the string contains a single quote and no double quote. -/
def pyQuoteChar (s : String) : Char :=
  if s.data.contains sQuote && !(s.data.contains dQuote) then dQuote else sQuote

/-- Lower-case hexadecimal digit. -/
def hexDigit (n : Nat) : Char :=
  if n < 10 then Char.ofNat (48 + n) else Char.ofNat (87 + n)

/-- Python `repr` escaping of one character, given the chosen quote
character: backslash, the quote itself, tab, newline, carriage return and
other control characters are escaped; printable characters stand for
themselves. -/
def pyEscapeChar (q c : Char) : String :=
  if c = '\\' then String.mk ['\\', '\\']
  else if c = q then String.mk ['\\', q]
  else if c = '\t' then String.mk ['\\', 't']
  else if c = '\n' then String.mk ['\\', 'n']
  else if c = '\r' then String.mk ['\\', 'r']
  else if c.toNat < 32 || c.toNat == 127 then
    String.mk ['\\', 'x', hexDigit (c.toNat / 16), hexDigit (c.toNat % 16)]
  else String.mk [c]

/-- Python `repr` of a string: quote-wrapped, characters escaped. -/
def pyReprStr (s : String) : String :=
  let q := pyQuoteChar s
  String.mk [q] ++ String.join (s.data.map (pyEscapeChar q)) ++ String.mk [q]

/-- Test for the single-quote character, the argument of `.strip("'")` in
the source's `__repr__`. -/
def isSQuoteChar (c : Char) : Bool := c == sQuote

/-- Python `str.strip` with the single-quote character set: remove leading
and trailing single quotes from a character list. -/
def pyStripSQuotes (l : List Char) : List Char :=
  ((l.dropWhile isSQuoteChar).reverse.dropWhile isSQuoteChar).reverse

/-- Modelled from the spec: `StacktraceLine` (module `stacktrace`, not part
of the sources at hand) exposes a `code` string attribute and a
`location()` operation returning a string identity. -/
structure StacktraceLine where
  code : String
  loc : String
  deriving DecidableEq

/-- Modelled from the spec: the `location()` operation of a stack frame. -/
def StacktraceLine.location (l : StacktraceLine) : String := l.loc

/-- Modelled from the spec: the null sentinel frame, whose `code` is the
empty string and whose `location()` is the empty string. -/
def StacktraceLine.null : StacktraceLine := ⟨"", ""⟩

/-- Modelled from the spec: a `StackTrace` is an ordered sequence of
`StacktraceLine` (outermost first, last element innermost); rendering it as
text is delegated to the frame sequence itself, modelled as a stored
rendering. -/
structure StackTrace where
  frames : List StacktraceLine
  rendered : String
  deriving DecidableEq

/-- Modelled from the spec: `TimeDelta` (module `timedelta`, not part of
the sources at hand) exposes a `humanize()` operation and a debug
representation. -/
structure TimeDelta where
  humanized : String
  reprRendered : String
  deriving DecidableEq

/-- Modelled from the spec: the `humanize()` operation of a duration. -/
def TimeDelta.humanize (t : TimeDelta) : String := t.humanized

/-- The grammars (pygments lexers) the source can hand to the highlighter:
`SqlLexer`, `PostgresLexer` and `Python3Lexer`. -/
inductive Lexer where
  | sql
  | postgres
  | python3
  deriving DecidableEq

/-- The `Query` record of `query.py` (attrs class, field order as in the
source). -/
structure Query where
  code : String
  db : String
  duration : TimeDelta
  idx : Int
  is_select : Bool
  location : String
  params : String
  raw_params : List String
  sql : String
  sql_parameterized : String
  stacktrace : StackTrace
  start_time : Int
  stop_time : Int
  db_type : String
  deriving DecidableEq

/-- `Query.create`: the factory classmethod.  `last_executed_line` is
`stacktrace[-1]` when the trace is non-empty, else the null frame; the
record's `code`/`location` are derived from it and all other fields are
copied verbatim. -/
def Query.create (db : String) (duration : TimeDelta) (idx : Int)
    (is_select : Bool) (params : String) (raw_params : List String)
    (sql : String) (sql_parameterized : String) (stacktrace : StackTrace)
    (start_time : Int) (stop_time : Int) (db_type : String) : Query :=
  let last_executed_line : StacktraceLine :=
    (stacktrace.frames.getLast?).getD StacktraceLine.null
  ⟨last_executed_line.code, db, duration, idx, is_select,
    last_executed_line.location, params, raw_params, sql, sql_parameterized,
    stacktrace, start_time, stop_time, db_type⟩

/-- `truncated_sql` local of `__repr__`: `repr(self.sql)[:30].strip("'")`. -/
def Query.truncated_sql (q : Query) : String :=
  String.mk (pyStripSQuotes ((pyReprStr q.sql).data.take 30))

/-- `Query.__repr__`: the diagnostic representation (the f-string of the
source; literal single quotes written as `\x27`). -/
def Query.repr (q : Query) : String :=
  "Query(idx=" ++ toString q.idx ++ ", code=\x27" ++ q.code ++
    "\x27, duration=" ++ q.duration.reprRendered ++ ", location=\x27" ++
    q.location ++ "\x27, sql=\x27" ++ q.truncated_sql ++ "...\x27)"

/-- The keyword options of `display_string`/`display`, in the order of the
Python signature. -/
structure DisplayOptions where
  code : Bool
  duration : Bool
  idx : Bool
  location : Bool
  stacktrace : Bool
  sql : Bool
  colored : Bool
  formatted : Bool
  deriving DecidableEq

/-- The Python defaults: `code=True, duration=True, idx=False,
location=True, stacktrace=False, sql=True, colored=True, formatted=True`. -/
def DisplayOptions.default : DisplayOptions :=
  ⟨true, true, false, true, false, true, true, true⟩

/-- `Query._enhanced_sql`.  The pygments call
`highlight(text, lexer, TerminalFormatter())` is abstracted as `hl`, the
call `sqlparse.format(text, reindent=True)` as `fmt`; the body mirrors the
source statement by statement (the `sql` locals are rebindings). -/
def Query._enhanced_sql (hl : String → Lexer → String) (fmt : String → String)
    (q : Query) (formatted : Bool) (colored : Bool) : String :=
  let lexer : Lexer := Lexer.sql
  let lexer : Lexer :=
    if pyLower q.db_type = "postgresql" then Lexer.postgres else lexer
  let sql : String := q.sql
  let sql : String := if formatted then fmt q.sql else sql
  let sql : String := if colored then hl sql lexer else sql
  sql

/-- The grammar `_enhanced_sql` hands to the highlighter: the
PostgreSQL-specific lexer exactly when `db_type.lower() == "postgresql"`,
else the generic SQL lexer. -/
def Query.selectLexer (q : Query) : Lexer :=
  if pyLower q.db_type = "postgresql" then Lexer.postgres else Lexer.sql

/-- `Query.display_string`, mirroring the source: the `attributes` list is
grown by one conditional append per section, each entry is stripped, the
entries are joined with one blank line and the result is right-stripped. -/
def Query.display_string (hl : String → Lexer → String)
    (fmt : String → String) (q : Query) (opts : DisplayOptions) : String :=
  let attributes : List String := []
  let attributes :=
    if opts.idx then attributes ++ ["index: " ++ toString q.idx]
    else attributes
  let attributes :=
    if opts.duration then attributes ++ [q.duration.humanize] else attributes
  let attributes :=
    if opts.location then attributes ++ [q.location] else attributes
  let attributes :=
    if opts.code then
      attributes ++
        [if opts.colored && opts.formatted then hl q.code Lexer.python3
         else q.code]
    else attributes
  let attributes :=
    if opts.stacktrace then attributes ++ [q.stacktrace.rendered]
    else attributes
  let attributes :=
    if opts.sql then
      attributes ++
        [if opts.colored then
           Query._enhanced_sql hl fmt q opts.formatted opts.colored
         else q.sql]
    else attributes
  let attributes := attributes.map pyStrip
  pyRstrip (pyJoin "\n\n" attributes)

/-- The section strings `display_string` builds (the `attributes` list
before the strip/join post-processing), written as one ordered
concatenation. -/
def Query.sections (hl : String → Lexer → String) (fmt : String → String)
    (q : Query) (opts : DisplayOptions) : List String :=
  (if opts.idx then ["index: " ++ toString q.idx] else []) ++
  (if opts.duration then [q.duration.humanize] else []) ++
  (if opts.location then [q.location] else []) ++
  (if opts.code then
     [if opts.colored && opts.formatted then hl q.code Lexer.python3
      else q.code]
   else []) ++
  (if opts.stacktrace then [q.stacktrace.rendered] else []) ++
  (if opts.sql then
     [if opts.colored then Query._enhanced_sql hl fmt q opts.formatted opts.colored
      else q.sql]
   else [])

/-- `Query.__str__`: `display_string` with every option at its default. -/
def Query.str (hl : String → Lexer → String) (fmt : String → String)
    (q : Query) : String :=
  q.display_string hl fmt DisplayOptions.default

/-- State-passing embedding of `display_string`: the method returns its
result together with the receiver after the call.  No statement of the
source assigns to a field of `self`, so the receiver is threaded through
unchanged. -/
def Query.displayStringSt (hl : String → Lexer → String)
    (fmt : String → String) (q : Query) (opts : DisplayOptions) :
    String × Query :=
  let attributes : List String := []
  let attributes :=
    if opts.idx then attributes ++ ["index: " ++ toString q.idx]
    else attributes
  let attributes :=
    if opts.duration then attributes ++ [q.duration.humanize] else attributes
  let attributes :=
    if opts.location then attributes ++ [q.location] else attributes
  let attributes :=
    if opts.code then
      attributes ++
        [if opts.colored && opts.formatted then hl q.code Lexer.python3
         else q.code]
    else attributes
  let attributes :=
    if opts.stacktrace then attributes ++ [q.stacktrace.rendered]
    else attributes
  let attributes :=
    if opts.sql then
      attributes ++
        [if opts.colored then
           Query._enhanced_sql hl fmt q opts.formatted opts.colored
         else q.sql]
    else attributes
  let attributes := attributes.map pyStrip
  (pyRstrip (pyJoin "\n\n" attributes), q)

/-- State-passing embedding of `_enhanced_sql`: the `lexer` and `sql`
locals are rebindings; no field of `self` is assigned, so the receiver is
returned unchanged. -/
def Query.enhancedSqlSt (hl : String → Lexer → String)
    (fmt : String → String) (q : Query) (formatted : Bool) (colored : Bool) :
    String × Query :=
  let lexer : Lexer := Lexer.sql
  let lexer : Lexer :=
    if pyLower q.db_type = "postgresql" then Lexer.postgres else lexer
  let sql : String := q.sql
  let sql : String := if formatted then fmt q.sql else sql
  let sql : String := if colored then hl sql lexer else sql
  (sql, q)

/-- State-passing embedding of `__repr__`: the `truncated_sql` local is a
pure computation; the receiver is returned unchanged. -/
def Query.reprSt (q : Query) : String × Query :=
  let truncated_sql := String.mk (pyStripSQuotes ((pyReprStr q.sql).data.take 30))
  ("Query(idx=" ++ toString q.idx ++ ", code=\x27" ++ q.code ++
    "\x27, duration=" ++ q.duration.reprRendered ++ ", location=\x27" ++
    q.location ++ "\x27, sql=\x27" ++ truncated_sql ++ "...\x27)", q)

/-- Concrete record builder used by witness statements. -/
def mkQuery (sql db_type code : String) : Query :=
  ⟨code, "main", ⟨"1 ms", "TimeDelta(0.001)"⟩, 0, true, "app.py:1", "", [],
    sql, sql, ⟨[], ""⟩, 0, 0, db_type⟩

/-! Helper lemmas (shared by several claim proofs). -/

theorem displayString_eq_sections (hl : String → Lexer → String)
    (fmt : String → String) (q : Query) (opts : DisplayOptions) :
    Query.display_string hl fmt q opts =
      pyRstrip (pyJoin "\n\n" ((Query.sections hl fmt q opts).map pyStrip)) := by
  obtain ⟨a, b, c, d, e, f, g, h⟩ := opts
  cases a <;> cases b <;> cases c <;> cases d <;> cases e <;> cases f <;> rfl

theorem head?_dropWhile_false {α : Type} (p : α → Bool) :
    ∀ (l : List α) (a : α), (l.dropWhile p).head? = some a → p a = false := by
  intro l
  induction l with
  | nil =>
    intro a h
    simp [List.dropWhile] at h
  | cons x xs ih =>
    intro a h
    rw [List.dropWhile_cons] at h
    by_cases hx : p x = true
    · rw [if_pos hx] at h
      exact ih a h
    · rw [if_neg hx] at h
      simp at h
      rw [← h]
      exact Bool.not_eq_true _ |>.mp hx

theorem getLast?_dropWhile_ne_nil {α : Type} (p : α → Bool) :
    ∀ (m : List α), m.dropWhile p ≠ [] → (m.dropWhile p).getLast? = m.getLast? := by
  intro m
  induction m with
  | nil =>
    intro h
    simp [List.dropWhile] at h
  | cons x xs ih =>
    intro h
    rw [List.dropWhile_cons] at h ⊢
    by_cases hx : p x = true
    · rw [if_pos hx] at h ⊢
      rw [ih h]
      cases xs with
      | nil => simp [List.dropWhile] at h
      | cons y ys => exact List.getLast?_cons_cons.symm
    · rw [if_neg hx]

theorem length_pyStripSQuotes_le (l : List Char) :
    (pyStripSQuotes l).length ≤ l.length := by
  unfold pyStripSQuotes
  rw [List.length_reverse]
  calc ((l.dropWhile isSQuoteChar).reverse.dropWhile isSQuoteChar).length
      ≤ (l.dropWhile isSQuoteChar).reverse.length :=
        (List.dropWhile_sublist isSQuoteChar).length_le
    _ = (l.dropWhile isSQuoteChar).length := List.length_reverse _
    _ ≤ l.length := (List.dropWhile_sublist isSQuoteChar).length_le

theorem pyStripSQuotes_head (l : List Char) (a : Char)
    (h : (pyStripSQuotes l).head? = some a) : isSQuoteChar a = false := by
  unfold pyStripSQuotes at h
  rw [List.head?_reverse] at h
  have hne : (l.dropWhile isSQuoteChar).reverse.dropWhile isSQuoteChar ≠ [] := by
    intro h0
    rw [h0] at h
    simp at h
  rw [getLast?_dropWhile_ne_nil isSQuoteChar _ hne, List.getLast?_reverse] at h
  exact head?_dropWhile_false isSQuoteChar _ a h

theorem pyStripSQuotes_last (l : List Char) (a : Char)
    (h : (pyStripSQuotes l).getLast? = some a) : isSQuoteChar a = false := by
  unfold pyStripSQuotes at h
  rw [List.getLast?_reverse] at h
  exact head?_dropWhile_false isSQuoteChar _ a h

/-- Boundary predicate used to state the quote-stripping property of the
truncated SQL excerpt: the optional boundary character, when present, is
not a single quote. -/
def notSQuoteOpt : Option Char → Bool
  | some c => !(isSQuoteChar c)
  | none => true

/-! Claim theorems. -/

/-- C1: `Query.create` derives `code` and `location` from the last stack
frame (`stacktrace[-1]`) when the trace is non-empty, yields the empty
string for both when the trace is empty (the null-frame sentinel values),
and copies every other field verbatim from the arguments. -/
theorem claim1_create_derived_fields (db : String) (duration : TimeDelta)
    (idx : Int) (is_select : Bool) (params : String)
    (raw_params : List String) (sql : String) (sql_parameterized : String)
    (stacktrace : StackTrace) (start_time : Int) (stop_time : Int)
    (db_type : String) (q : Query)
    (hq : q = Query.create db duration idx is_select params raw_params sql
      sql_parameterized stacktrace start_time stop_time db_type) :
    (∀ l, stacktrace.frames.getLast? = some l →
      q.code = l.code ∧ q.location = l.location) ∧
    (stacktrace.frames = [] → q.code = "" ∧ q.location = "") ∧
    q.db = db ∧ q.duration = duration ∧ q.idx = idx ∧
    q.is_select = is_select ∧ q.params = params ∧
    q.raw_params = raw_params ∧ q.sql = sql ∧
    q.sql_parameterized = sql_parameterized ∧ q.stacktrace = stacktrace ∧
    q.start_time = start_time ∧ q.stop_time = stop_time ∧
    q.db_type = db_type := by
  subst hq
  refine ⟨?_, ?_, rfl, rfl, rfl, rfl, rfl, rfl, rfl, rfl, rfl, rfl, rfl, rfl⟩
  · intro l hl
    constructor <;> simp [Query.create, hl, StacktraceLine.location]
  · intro h
    constructor <;>
      simp [Query.create, h, StacktraceLine.null, StacktraceLine.location]

/-- Witness for C1: a two-frame trace yields the last frame's code, an
empty trace yields the empty location. -/
theorem claim1_witness :
    (Query.create "db" ⟨"1 ms", "td"⟩ 1 true "" [] "SELECT 1" "SELECT 1"
      ⟨[⟨"a = 1", "f.py:1"⟩, ⟨"b = 2", "f.py:2"⟩], "tb"⟩ 0 0
      "postgresql").code = "b = 2" ∧
    (Query.create "db" ⟨"1 ms", "td"⟩ 1 true "" [] "SELECT 1" "SELECT 1"
      ⟨[], "tb"⟩ 0 0 "postgresql").location = "" := by
  constructor
  · exact ((claim1_create_derived_fields "db" ⟨"1 ms", "td"⟩ 1 true "" []
      "SELECT 1" "SELECT 1" ⟨[⟨"a = 1", "f.py:1"⟩, ⟨"b = 2", "f.py:2"⟩], "tb"⟩
      0 0 "postgresql" _ rfl).1 ⟨"b = 2", "f.py:2"⟩ (by decide)).1
  · exact ((claim1_create_derived_fields "db" ⟨"1 ms", "td"⟩ 1 true "" []
      "SELECT 1" "SELECT 1" ⟨[], "tb"⟩ 0 0 "postgresql" _ rfl).2.1 rfl).2

/-- C2: with `sql=true` and `colored=false`, the section string the report
builder appends for the SQL section is the record's raw `sql` field
exactly, character for character (the highlighter `hl` is arbitrary and
unused, so no escape sequences are introduced): the section list is the
section list without the SQL flag with exactly `[q.sql]` appended. -/
theorem claim2_sql_section_is_raw_sql (hl : String → Lexer → String)
    (fmt : String → String) (q : Query) (opts : DisplayOptions)
    (hsql : opts.sql = true) (hcol : opts.colored = false) :
    Query.sections hl fmt q opts =
      Query.sections hl fmt q
        ⟨opts.code, opts.duration, opts.idx, opts.location, opts.stacktrace,
          false, opts.colored, opts.formatted⟩ ++ [q.sql] := by
  simp [Query.sections, hsql, hcol]

/-- Witness for C2 at a concrete record and option set. -/
theorem claim2_witness :
    Query.sections (fun s _ => s) (fun s => s)
      (mkQuery "SELECT 1" "postgresql" "x = 1")
      ⟨true, true, true, true, true, true, false, true⟩ =
    Query.sections (fun s _ => s) (fun s => s)
      (mkQuery "SELECT 1" "postgresql" "x = 1")
      ⟨true, true, true, true, true, false, false, true⟩ ++
      [(mkQuery "SELECT 1" "postgresql" "x = 1").sql] :=
  claim2_sql_section_is_raw_sql (fun s _ => s) (fun s => s)
    (mkQuery "SELECT 1" "postgresql" "x = 1")
    ⟨true, true, true, true, true, true, false, true⟩ rfl rfl

/-- C3: `display_string` builds the included sections in the fixed order
index, duration, location, code, stacktrace, sql (each appended exactly
when its flag is true, empty strings included), strips leading and
trailing whitespace from each section, joins with one blank line (two
newline characters) and strips trailing whitespace from the joined
result. -/
theorem claim3_section_order_and_joining (hl : String → Lexer → String)
    (fmt : String → String) (q : Query) (opts : DisplayOptions) :
    Query.display_string hl fmt q opts =
      pyRstrip (pyJoin "\n\n" (List.map pyStrip (
        (if opts.idx then ["index: " ++ toString q.idx] else []) ++
        (if opts.duration then [q.duration.humanize] else []) ++
        (if opts.location then [q.location] else []) ++
        (if opts.code then
           [if opts.colored && opts.formatted then hl q.code Lexer.python3
            else q.code]
         else []) ++
        (if opts.stacktrace then [q.stacktrace.rendered] else []) ++
        (if opts.sql then
           [if opts.colored then
              Query._enhanced_sql hl fmt q opts.formatted opts.colored
            else q.sql]
         else [])))) :=
  displayString_eq_sections hl fmt q opts

/-- C4: with all six section flags false, `display_string` returns the
empty string, whatever `colored` and `formatted` are. -/
theorem claim4_all_section_flags_off_empty (hl : String → Lexer → String)
    (fmt : String → String) (q : Query) (colored formatted : Bool) :
    Query.display_string hl fmt q
      ⟨false, false, false, false, false, false, colored, formatted⟩ = "" :=
  rfl

/-- C5: `_enhanced_sql` hands the highlighter the PostgreSQL-specific
grammar exactly when `db_type` compares equal to `"postgresql"`
case-insensitively, and the generic SQL grammar for every other value;
the selection is total, so no value can raise. -/
theorem claim5_grammar_selection (q : Query) :
    (q.selectLexer = Lexer.postgres ↔ pyLower q.db_type = "postgresql") ∧
    (pyLower q.db_type ≠ "postgresql" → q.selectLexer = Lexer.sql) ∧
    ∀ (hl : String → Lexer → String) (fmt : String → String)
      (formatted : Bool),
      Query._enhanced_sql hl fmt q formatted true =
        hl (if formatted then fmt q.sql else q.sql) q.selectLexer := by
  refine ⟨?_, ?_, ?_⟩
  · by_cases h : pyLower q.db_type = "postgresql" <;>
      simp [Query.selectLexer, h]
  · intro h
    simp [Query.selectLexer, h]
  · intro hl fmt formatted
    cases formatted <;> rfl

/-- Witness for C5: `"PostgreSQL"` (mixed case) selects the PostgreSQL
grammar, `"mysql"` the generic one. -/
theorem claim5_witness :
    (mkQuery "SELECT 1" "PostgreSQL" "x = 1").selectLexer = Lexer.postgres ∧
    (mkQuery "SELECT 1" "mysql" "x = 1").selectLexer = Lexer.sql :=
  ⟨(claim5_grammar_selection (mkQuery "SELECT 1" "PostgreSQL" "x = 1")).1.mpr
      (by decide),
   (claim5_grammar_selection (mkQuery "SELECT 1" "mysql" "x = 1")).2.1
      (by decide)⟩

/-- C6: with `formatted=true`, `_enhanced_sql` applies the SQL
pretty-printer `fmt` to the raw `sql` field before any highlighting; with
`formatted=false` and `colored=true` the text handed to the highlighter is
the raw `sql` unchanged, so whatever the highlighter adds, the underlying
text keeps its original whitespace and line breaks. -/
theorem claim6_formatting_dataflow (hl : String → Lexer → String)
    (fmt : String → String) (q : Query) :
    (∀ colored : Bool,
      Query._enhanced_sql hl fmt q true colored =
        (if colored then hl (fmt q.sql) q.selectLexer else fmt q.sql)) ∧
    Query._enhanced_sql hl fmt q false true = hl q.sql q.selectLexer := by
  constructor
  · intro colored
    cases colored <;> rfl
  · rfl

/-- C7: when the `code` flag is on, the section string built for the code
slot is the highlighted form `hl code Python3` exactly when `colored` and
`formatted` are both true, and the plain unmodified `code` field whenever
either is false; with only the code flag on the section list is exactly
that one string. -/
theorem claim7_code_section (hl : String → Lexer → String)
    (fmt : String → String) (q : Query) (opts : DisplayOptions)
    (hcode : opts.code = true) :
    ((if opts.colored && opts.formatted then hl q.code Lexer.python3
      else q.code) ∈ Query.sections hl fmt q opts) ∧
    ∀ colored formatted : Bool,
      Query.sections hl fmt q
        ⟨true, false, false, false, false, false, colored, formatted⟩ =
        [if colored && formatted then hl q.code Lexer.python3 else q.code] := by
  constructor
  · simp [Query.sections, hcode]
  · intro colored formatted
    rfl

/-- Witness for C7: with `colored=false` the plain code field is the
section built for the code slot. -/
theorem claim7_witness :
    (mkQuery "SELECT 1" "postgresql" "y = 2").code ∈
      Query.sections (fun s _ => s) (fun s => s)
        (mkQuery "SELECT 1" "postgresql" "y = 2")
        ⟨true, true, false, true, false, true, false, true⟩ :=
  (claim7_code_section (fun s _ => s) (fun s => s)
    (mkQuery "SELECT 1" "postgresql" "y = 2")
    ⟨true, true, false, true, false, true, false, true⟩ rfl).1

/-- C8 counterexample: for `sql = "it's gone"` (written with `\x27`)
Python's `repr` renders the string with double quotes, and
`.strip("'")` leaves them in place: the excerpt embedded in the
diagnostic representation still begins and ends with a quote character,
so the claim that the excerpt has its surrounding quote characters
stripped is false at this input. -/
theorem claim8_counterexample :
    (mkQuery "it\x27s gone" "postgresql" "x = 1").truncated_sql =
      "\x22it\x27s gone\x22" ∧
    ((mkQuery "it\x27s gone" "postgresql" "x = 1").truncated_sql).data.head?
      = some dQuote := by
  constructor <;> decide

/-- C8 amended: the diagnostic representation is total (never raises,
whatever the length of `sql`), its SQL excerpt is at most 30 characters
long, has surrounding SINGLE-quote characters stripped (when Python's
`repr` chooses double quotes they are not stripped), and is followed by
the ellipsis marker `...`. -/
theorem claim8_repr_truncation (q : Query) :
    (q.truncated_sql).length ≤ 30 ∧
    notSQuoteOpt (q.truncated_sql).data.head? = true ∧
    notSQuoteOpt (q.truncated_sql).data.getLast? = true ∧
    Query.repr q =
      "Query(idx=" ++ toString q.idx ++ ", code=\x27" ++ q.code ++
        "\x27, duration=" ++ q.duration.reprRendered ++ ", location=\x27" ++
        q.location ++ "\x27, sql=\x27" ++ q.truncated_sql ++ "...\x27)" := by
  refine ⟨?_, ?_, ?_, rfl⟩
  · show (pyStripSQuotes ((pyReprStr q.sql).data.take 30)).length ≤ 30
    have h1 := length_pyStripSQuotes_le ((pyReprStr q.sql).data.take 30)
    have h2 : ((pyReprStr q.sql).data.take 30).length ≤ 30 := by
      simp [List.length_take]
    exact le_trans h1 h2
  · show notSQuoteOpt (pyStripSQuotes ((pyReprStr q.sql).data.take 30)).head?
      = true
    cases hh : (pyStripSQuotes ((pyReprStr q.sql).data.take 30)).head? with
    | none => rfl
    | some a =>
      have := pyStripSQuotes_head _ a hh
      simp [notSQuoteOpt, this]
  · show notSQuoteOpt
      (pyStripSQuotes ((pyReprStr q.sql).data.take 30)).getLast? = true
    cases hh : (pyStripSQuotes ((pyReprStr q.sql).data.take 30)).getLast? with
    | none => rfl
    | some a =>
      have := pyStripSQuotes_last _ a hh
      simp [notSQuoteOpt, this]

/-- C9: the display operations are pure with respect to the record: in the
state-passing embedding each method returns the receiver unchanged, and
its result agrees with the pure reading of the method. -/
theorem claim9_display_operations_pure (hl : String → Lexer → String)
    (fmt : String → String) (q : Query) (opts : DisplayOptions)
    (formatted colored : Bool) :
    (Query.displayStringSt hl fmt q opts).2 = q ∧
    (Query.displayStringSt hl fmt q opts).1 =
      Query.display_string hl fmt q opts ∧
    (Query.enhancedSqlSt hl fmt q formatted colored).2 = q ∧
    (Query.enhancedSqlSt hl fmt q formatted colored).1 =
      Query._enhanced_sql hl fmt q formatted colored ∧
    (Query.reprSt q).2 = q ∧
    (Query.reprSt q).1 = Query.repr q :=
  ⟨rfl, rfl, rfl, rfl, rfl, rfl⟩

/-- C10: `__str__` is `display_string` at the default options: code,
duration, location and sql on; idx and stacktrace off; colored and
formatted on. -/
theorem claim10_str_is_default_display (hl : String → Lexer → String)
    (fmt : String → String) (q : Query) :
    Query.str hl fmt q =
      Query.display_string hl fmt q
        ⟨true, true, false, true, false, true, true, true⟩ :=
  rfl
